import Mathlib

/-!
Shallow embedding of the SpaceX ETL loader
(`transformation/process_data.py`, `loading/database_operations.py`,
`loading/create_table.py`) and proofs about its load pipeline.

Python values flowing through the pipeline are JSON-shaped; dicts are
insertion-ordered maps with unique keys, modelled as association lists
with Python's assignment semantics (update in place, else append).
-/

namespace SpaceXETL

/-- A Python/JSON value as the pipeline sees it. -/
inductive JsonValue where
  | null
  | bool (b : Bool)
  | int (n : Int)
  | float (q : ℚ)
  | str (s : String)
  | obj (fields : List (String × JsonValue))
  | arr (items : List JsonValue)

/-- Python `d[k]` / `d.get(k)`: first (unique) binding of key `k`. -/
def dictGet {α : Type} : List (String × α) → String → Option α
  | [], _ => none
  | (k', v') :: rest, k => if k' = k then some v' else dictGet rest k

/-- Python `d[k] = v` on a dict: replace the existing binding in place,
otherwise append a new one. -/
def dictSet {α : Type} : List (String × α) → String → α → List (String × α)
  | [], k, v => [(k, v)]
  | (k', v') :: rest, k, v =>
    if k' = k then (k, v) :: rest else (k', v') :: dictSet rest k v

/-- Python truthiness of a value (`if not record_id`). -/
def pyTruthy : JsonValue → Bool
  | .null => false
  | .bool b => b
  | .int n => decide (n ≠ 0)
  | .float q => decide (q ≠ 0)
  | .str s => decide (s ≠ "")
  | .obj fields => !fields.isEmpty
  | .arr items => !items.isEmpty

/-- Truthiness of `record.get(k)` (a missing key yields `None`, falsy). -/
def pyTruthyOpt (o : Option JsonValue) : Bool :=
  (o.map pyTruthy).getD false

/-- Python `str.lower()` as the source applies it to ASCII field names
(`String.toLower` itself is definitionally opaque here, so the character
map is spelled out). -/
def pyLower (s : String) : String := String.mk (s.data.map Char.toLower)

/-- A value as handed to psycopg2: either a raw Python value or a value
wrapped in the `psycopg2.extras.Json` adapter (rendered as JSONB). -/
inductive SqlValue where
  | plain (v : JsonValue)
  | jsonb (v : JsonValue)

/-- Python `str(x)` for the id values the pipeline passes (line 81 of
`database_operations.py` sends `str(record_id)`).  Python's repr of
composite values is abstracted; no record id in this development is
composite. -/
def pyStr : JsonValue → String
  | .null => "None"
  | .bool b => if b then "True" else "False"
  | .int n => toString n
  | .float q => toString q
  | .str s => s
  | .obj _ => "<dict>"
  | .arr _ => "<list>"

mutual
/-- The transformation `process_boolean_values` applies to one dict value
(lines 17-25 of `process_data.py`): a bool becomes `1`/`0`; a dict is
recursed into; inside a list only dict items are recursed into (bools that
are direct list items are left alone); everything else is untouched. -/
def pbv_value : JsonValue → JsonValue
  | .bool b => .int (if b then 1 else 0)
  | .obj fields => .obj (pbv_obj fields)
  | .arr items => .arr (pbv_list items)
  | v => v

/-- Embeds `process_boolean_values` over a raw dict. -/
def pbv_obj : List (String × JsonValue) → List (String × JsonValue)
  | [] => []
  | (k, v) :: rest => (k, pbv_value v) :: pbv_obj rest

/-- The list branch of `process_boolean_values`: only items that are dicts
are processed (`isinstance(item, dict)`). -/
def pbv_list : List JsonValue → List JsonValue
  | [] => []
  | JsonValue.obj fields :: rest => JsonValue.obj (pbv_obj fields) :: pbv_list rest
  | v :: rest => v :: pbv_list rest
end

/-- Embeds `process_boolean_values` as invoked on the flattened record
(line 41 of `database_operations.py`).  The flattened record's values are
either raw scalars or `Json` adapter instances; a `Json` instance is no
`bool`, `dict` or `list`, so it passes through untouched. -/
def process_boolean_values (data : List (String × SqlValue)) : List (String × SqlValue) :=
  data.map fun p =>
    (p.1, match p.2 with
      | .plain (.bool b) => .plain (.int (if b then 1 else 0))
      | .plain (.obj fields) => .plain (.obj (pbv_obj fields))
      | .plain (.arr items) => .plain (.arr (pbv_list items))
      | v => v)

/-- One field of `flatten_json` (lines 34-41 of `process_data.py`): dicts
and lists are wrapped in the `Json` adapter ("Convert dict to JSONB");
booleans and all other scalars are copied through unchanged. -/
def flattenValue : JsonValue → SqlValue
  | .obj fields => .jsonb (.obj fields)
  | .arr items => .jsonb (.arr items)
  | v => .plain v

/-- Embeds `flatten_json(data)` with the default empty prefix (lines 29-42 of
`process_data.py`): every field is assigned under its lower-cased key;
despite its name the function never recurses, nested values stay in the
mapping wrapped as JSONB. -/
def flatten_json (data : List (String × JsonValue)) : List (String × SqlValue) :=
  data.foldl (fun acc p => dictSet acc (pyLower p.1) (flattenValue p.2)) []

/-- Embeds `infer_column_type` (lines 44-61 of `process_data.py`), evaluated on
the values `add_missing_columns` hands it.  The `isinstance` chain is
checked in source order; Python's `bool` is a subclass of `int`, so a
boolean satisfies the first check and yields `"INTEGER"` — the later
`elif isinstance(value, bool)` branch is unreachable.  A `Json` adapter
instance satisfies none of the checks and falls through to `"TEXT"`. -/
def infer_column_type : SqlValue → String
  | .plain (.int _) => "INTEGER"
  | .plain (.bool _) => "INTEGER"
  | .plain (.float _) => "REAL"
  | .plain (.str s) => if pyLower s = "true" ∨ pyLower s = "false" then "BOOLEAN" else "TEXT"
  | .plain (.obj _) => "jsonb"
  | .plain (.arr _) => "jsonb"
  | .plain .null => "TEXT"
  | .jsonb _ => "TEXT"

/-- One stored row: the remaining columns of a row keyed by its primary
key, as an assignment of SQL parameter values to column names (an absent
column reads as NULL). -/
abbrev Row : Type := List (String × SqlValue)

/-- A table as the loader observes it: its `information_schema` column
list (name, declared type) and its rows keyed by primary-key value.
Engine-side constraint enforcement (the `REFERENCES` clause of child
tables) is not modelled; the `PRIMARY KEY (id)` uniqueness that the
`ON CONFLICT (id)` upsert relies on is modelled by the keyed row map. -/
structure Table where
  columns : List (String × String)
  rows : List (String × Row)

/-- The connection-visible database state.  `uuidCounter` supplies the
fresh values successive `uuid.uuid4()` calls return. -/
structure Db where
  tables : List (String × Table)
  uuidCounter : Nat

/-- Embeds `create_table_if_not_exists` (`create_table.py` lines 58-72):
`CREATE TABLE IF NOT EXISTS` with `id TEXT PRIMARY KEY, data TEXT`,
committed. -/
def create_table_if_not_exists (db : Db) (table_name : String) : Db :=
  match dictGet db.tables table_name with
  | some _ => db
  | none =>
    let t : Table := { columns := [("id", "TEXT"), ("data", "TEXT")], rows := [] }
    { db with tables := dictSet db.tables table_name t }

/-- One `ALTER TABLE ... ADD COLUMN` attempt of `add_missing_columns`
(lines 19-30 of `database_operations.py`): on success the addition is
committed at once; an engine error (missing table, duplicate column) is
caught, printed and rolled back, leaving the state unchanged (every
earlier addition was already committed, so the rollback discards
nothing). -/
def alterAddColumn (db : Db) (table_name column_name column_type : String) : Db :=
  match dictGet db.tables table_name with
  | none => db
  | some t =>
    if (dictGet t.columns column_name).isSome then db
    else
      let t' : Table := { t with columns := t.columns ++ [(column_name, column_type)] }
      { db with tables := dictSet db.tables table_name t' }

/-- Embeds `add_missing_columns` (lines 7-30 of `database_operations.py`): read
the live column set once, then for each record key whose lower-cased name
is absent from that snapshot, add a column typed by `infer_column_type`
on the record's value. -/
def add_missing_columns (db : Db) (table_name : String)
    (record : List (String × SqlValue)) : Db :=
  let existing := ((dictGet db.tables table_name).map Table.columns).getD []
  record.foldl (fun db' p =>
    let column_name := pyLower p.1
    if (dictGet existing column_name).isSome then db'
    else alterAddColumn db' table_name column_name (infer_column_type p.2)) db

/-- The insert loop of `create_nested_table` (lines 111-123 of
`process_data.py`): per item a fresh `uuid4` child id is generated, then
`INSERT INTO child (child_id, {parent}_id, data) VALUES (%s, %s, %s)`
with the raw parent id and the `Json`-wrapped nested item; an engine
error (e.g. the table missing) is caught and rolled back. -/
def nested_insert (parent_table child_table : String) (db : Db)
    (pd : JsonValue × JsonValue) : Db :=
  let child_id := "uuid-" ++ toString db.uuidCounter
  match dictGet db.tables child_table with
  | none => { db with uuidCounter := db.uuidCounter + 1 }
  | some t =>
    let newRow : Row := [(parent_table ++ "_id", SqlValue.plain pd.1),
                         ("data", SqlValue.jsonb pd.2)]
    let t' : Table := { t with rows := t.rows ++ [(child_id, newRow)] }
    { db with uuidCounter := db.uuidCounter + 1,
              tables := dictSet db.tables child_table t' }

/-- Embeds `create_nested_table` (lines 87-126 of `process_data.py`):
`CREATE TABLE IF NOT EXISTS {parent}_{column} (child_id TEXT PRIMARY KEY,
{parent}_id TEXT REFERENCES parent(id), data JSONB)`, committed, then the
insert loop over `nested_data` pairs, then commit. -/
def create_nested_table (db : Db) (parent_table nested_column : String)
    (nested_data : List (JsonValue × JsonValue)) : Db :=
  let child_table := parent_table ++ "_" ++ nested_column
  let db1 :=
    match dictGet db.tables child_table with
    | some _ => db
    | none =>
      let t : Table := { columns := [("child_id", "TEXT"),
                                     (parent_table ++ "_id", "TEXT"),
                                     ("data", "JSONB")],
                         rows := [] }
      { db with tables := dictSet db.tables child_table t }
  nested_data.foldl (nested_insert parent_table child_table) db1

/-- Whether a value is picked out by `isinstance(value, (dict, list))`. -/
def isNestedValue : JsonValue → Bool
  | .obj _ => true
  | .arr _ => true
  | _ => false

/-- Embeds `process_nested_columns` (lines 89-102 of `database_operations.py`):
collect the record's dict/list fields, and for each, when the record's
`parent_key` value is truthy, call `create_nested_table` with the single
pair `(parent_id, value)`.  The source gives `parent_key` the default
`'id'`; callers here pass it explicitly. -/
def process_nested_columns (db : Db) (table_name : String)
    (record : List (String × JsonValue)) (parent_key : String) : Db :=
  let nested_data := record.filter (fun p => isNestedValue p.2)
  nested_data.foldl (fun d p =>
    match dictGet record parent_key with
    | none => d
    | some parent_id =>
      if pyTruthy parent_id then create_nested_table d table_name p.1 [(parent_id, p.2)]
      else d) db

/-- Line 75-78 of `database_operations.py`: a raw `dict`/`list` value is
wrapped in `Json` before execution; a value already wrapped is no `dict`
or `list` instance and passes through. -/
def processed_value : SqlValue → SqlValue
  | .plain (.obj fields) => .jsonb (.obj fields)
  | .plain (.arr items) => .jsonb (.arr items)
  | v => v

/-- Lines 47-60 plus 75-78 of `database_operations.py`: the parallel
`columns` / `values` lists built from the non-`id` keys of the flattened
record, as (lower-cased column, processed value) pairs in record order. -/
def update_pairs (flattened : List (String × SqlValue)) : List (String × SqlValue) :=
  (flattened.filter (fun p => p.1 ≠ "id")).map
    (fun p => (pyLower p.1, processed_value p.2))

/-- Sequential assignment of a pair list onto an association list (how
both a Python dict literal and the `ON CONFLICT ... DO UPDATE SET`
assignments take effect). -/
def applyPairs (r : List (String × SqlValue)) (ps : List (String × SqlValue)) :
    List (String × SqlValue) :=
  ps.foldl (fun row p => dictSet row p.1 p.2) r

/-- Engine semantics of the statement built at lines 62-81 of
`database_operations.py`: `INSERT INTO t (id, cols) VALUES (...) ON
CONFLICT (id) DO UPDATE SET col = EXCLUDED.col` for each pair.  `none`
models an execution error the `except` at lines 83-85 catches: an empty
column list leaves the statement malformed (`INSERT INTO t (id, )`), and
a column the table lacks raises undefined-column. -/
def execute_upsert (t : Table) (record_id : String)
    (pairs : List (String × SqlValue)) : Option Table :=
  if pairs.isEmpty then none
  else if pairs.any (fun p => (dictGet t.columns p.1).isNone) then none
  else some
    (match dictGet t.rows record_id with
     | some r => { t with rows := dictSet t.rows record_id (applyPairs r pairs) }
     | none => { t with rows := t.rows ++ [(record_id, applyPairs [] pairs)] })

/-- A Python exception escaping `insert_or_update_data` uncaught. -/
inductive PyError where
  | unboundLocalError (name : String)

/-- A JSON record as fetched: a dict of fields. -/
abbrev Record : Type := List (String × JsonValue)

/-- The record loop of `insert_or_update_data` (lines 34-85 of
`database_operations.py`).  A record with a falsy or missing `id` is
skipped and the loop continues.  Otherwise lines 40-42 flatten,
boolean-normalize and add columns (committing each addition), and then
line 45 evaluates `process_nested_columns` — a local name of
`insert_or_update_data` that only the `def` statement *after* this loop
(line 89) would bind, so the reference raises `UnboundLocalError`; no
handler in the function catches it, so the loop and the function abort
there, before any `INSERT` of the batch is executed.  Lines 47-85 are
unreachable; they are embedded separately (`update_pairs`,
`execute_upsert`, `load_record_body`). -/
def insert_or_update_data_loop (db : Db) (table_name : String) :
    List Record → Db × Option PyError
  | [] => (db, none)
  | record :: rest =>
    if pyTruthyOpt (dictGet record "id") then
      let flattened := process_boolean_values (flatten_json record)
      let db' := add_missing_columns db table_name flattened
      (db', some (PyError.unboundLocalError "process_nested_columns"))
    else
      insert_or_update_data_loop db table_name rest

/-- Embeds `insert_or_update_data(conn, table_name, data)` (lines 32-87 of
`database_operations.py`): run the record loop; the final `conn.commit()`
at line 87 runs only when the loop completes without raising. -/
def insert_or_update_data (db : Db) (table_name : String) (data : List Record) :
    Db × Option PyError :=
  insert_or_update_data_loop db table_name data

/-- The record-level write path that lines 40-85 of
`insert_or_update_data` together with `process_nested_columns` (lines
89-102) spell out, taking the local name as bound.  In the source the
name is bound only after the loop has run, so this path is unreachable
(see `insert_or_update_data_loop`); the claims that describe the write
path are settled against it. -/
def load_record_body (db : Db) (table_name : String) (record : Record) : Db :=
  if pyTruthyOpt (dictGet record "id") then
    match dictGet record "id" with
    | none => db
    | some rid =>
      let flattened := process_boolean_values (flatten_json record)
      let db1 := add_missing_columns db table_name flattened
      let db2 := process_nested_columns db1 table_name record "id"
      match dictGet db2.tables table_name with
      | none => db2
      | some t =>
        match execute_upsert t (pyStr rid) (update_pairs flattened) with
        | none => db2
        | some t' => { db2 with tables := dictSet db2.tables table_name t' }
  else db

/-! ### Observers on the database state, used to phrase the claims. -/

/-- The declared type of a column, as `information_schema` reports it. -/
def tableColumnType (db : Db) (table col : String) : Option String :=
  (dictGet db.tables table).bind (fun t => dictGet t.columns col)

/-- The column names of a table, in order. -/
def tableColumnNames (db : Db) (table : String) : Option (List String) :=
  (dictGet db.tables table).map (fun t => t.columns.map Prod.fst)

/-- The number of rows of a table. -/
def rowCount (db : Db) (table : String) : Option Nat :=
  (dictGet db.tables table).map (fun t => t.rows.length)

/-- The value stored for `col` in the row keyed `rowId` of `table`. -/
def storedValue (db : Db) (table rowId col : String) : Option SqlValue :=
  (dictGet db.tables table).bind
    (fun t => (dictGet t.rows rowId).bind (fun r => dictGet r col))

/-! ### Association-list lemmas for the keyed dictionaries. -/

theorem dictGet_dictSet_self {α : Type} (d : List (String × α)) (k : String) (v : α) :
    dictGet (dictSet d k v) k = some v := by
  induction d with
  | nil => simp [dictSet, dictGet]
  | cons p rest ih =>
    obtain ⟨k', v'⟩ := p
    by_cases hk : k' = k
    · simp [dictSet, hk, dictGet]
    · simp [dictSet, hk, dictGet, ih]

theorem dictGet_dictSet_ne {α : Type} (d : List (String × α)) (k k' : String) (v : α)
    (h : k' ≠ k) : dictGet (dictSet d k v) k' = dictGet d k' := by
  induction d with
  | nil =>
    have hk : ¬(k = k') := fun hc => h hc.symm
    simp [dictSet, dictGet, hk]
  | cons p rest ih =>
    obtain ⟨k₀, v₀⟩ := p
    by_cases hk : k₀ = k
    · subst hk
      have hk' : ¬(k₀ = k') := fun hc => h hc.symm
      simp [dictSet, dictGet, hk']
    · simp only [dictSet, if_neg hk]
      by_cases hk' : k₀ = k'
      · simp [dictGet, hk']
      · simp [dictGet, hk', ih]

theorem dictSet_dictSet_same {α : Type} (d : List (String × α)) (k : String) (v w : α) :
    dictSet (dictSet d k v) k w = dictSet d k w := by
  induction d with
  | nil => simp [dictSet]
  | cons p rest ih =>
    obtain ⟨k₀, v₀⟩ := p
    by_cases hk : k₀ = k
    · simp [dictSet, hk]
    · simp [dictSet, hk, ih]

theorem dictSet_eq_of_get {α : Type} (d : List (String × α)) (k : String) (v : α)
    (h : dictGet d k = some v) : dictSet d k v = d := by
  induction d with
  | nil => simp [dictGet] at h
  | cons p rest ih =>
    obtain ⟨k₀, v₀⟩ := p
    by_cases hk : k₀ = k
    · subst hk
      simp [dictGet] at h
      simp [dictSet, h]
    · simp [dictGet, hk] at h
      simp [dictSet, hk, ih h]

theorem dictGet_append_of_none {α : Type} (d₁ d₂ : List (String × α)) (k : String)
    (h : dictGet d₁ k = none) : dictGet (d₁ ++ d₂) k = dictGet d₂ k := by
  induction d₁ with
  | nil => simp
  | cons p rest ih =>
    obtain ⟨k₀, v₀⟩ := p
    by_cases hk : k₀ = k
    · simp [dictGet, hk] at h
    · simp [dictGet, hk] at h ⊢
      exact ih h

/-! ### Lemmas about sequential assignment of pair lists. -/

theorem applyPairs_cons (r : Row) (p : String × SqlValue) (ps : List (String × SqlValue)) :
    applyPairs r (p :: ps) = applyPairs (dictSet r p.1 p.2) ps := rfl

theorem dictGet_applyPairs_not_mem (ps : List (String × SqlValue)) (r : Row) (k : String)
    (h : k ∉ ps.map Prod.fst) : dictGet (applyPairs r ps) k = dictGet r k := by
  induction ps generalizing r with
  | nil => rfl
  | cons q qs ih =>
    simp only [List.map_cons, List.mem_cons] at h
    push_neg at h
    rw [applyPairs_cons, ih _ h.2, dictGet_dictSet_ne _ _ _ _ h.1]

theorem dictGet_applyPairs_mem (ps : List (String × SqlValue)) (r : Row) (k : String)
    (v : SqlValue) (hnd : (ps.map Prod.fst).Nodup) (h : (k, v) ∈ ps) :
    dictGet (applyPairs r ps) k = some v := by
  induction ps generalizing r with
  | nil => simp at h
  | cons q qs ih =>
    simp only [List.map_cons, List.nodup_cons] at hnd
    rcases List.mem_cons.mp h with heq | hmem
    · subst heq
      rw [applyPairs_cons]
      rw [dictGet_applyPairs_not_mem _ _ _ hnd.1]
      exact dictGet_dictSet_self _ _ _
    · exact (applyPairs_cons r q qs) ▸ ih _ hnd.2 hmem

theorem applyPairs_eq_self (ps : List (String × SqlValue)) (s : Row)
    (h : ∀ p ∈ ps, dictGet s p.1 = some p.2) : applyPairs s ps = s := by
  induction ps with
  | nil => rfl
  | cons q qs ih =>
    rw [applyPairs_cons, dictSet_eq_of_get _ _ _ (h q (List.mem_cons_self _ _))]
    exact ih (fun p hp => h p (List.mem_cons_of_mem _ hp))

theorem applyPairs_idem (ps : List (String × SqlValue)) (r : Row)
    (hnd : (ps.map Prod.fst).Nodup) :
    applyPairs (applyPairs r ps) ps = applyPairs r ps :=
  applyPairs_eq_self ps (applyPairs r ps)
    (fun p hp => dictGet_applyPairs_mem ps r p.1 p.2 hnd hp)

/-! ### Semantic lemmas about the embedded pipeline functions. -/

theorem flattenValue_nested (v : JsonValue) (h : isNestedValue v = true) :
    flattenValue v = SqlValue.jsonb v := by
  cases v <;> simp [isNestedValue] at h <;> rfl

theorem flatten_json_eq_applyPairs (data : List (String × JsonValue)) :
    flatten_json data =
      applyPairs [] (data.map (fun p => (pyLower p.1, flattenValue p.2))) := by
  simp [flatten_json, applyPairs, List.foldl_map]

theorem alterAddColumn_rows (db : Db) (tn c ty : String) (t : String) :
    ((dictGet (alterAddColumn db tn c ty).tables t).map Table.rows) =
    ((dictGet db.tables t).map Table.rows) := by
  unfold alterAddColumn
  cases hdb : dictGet db.tables tn with
  | none => rfl
  | some tb =>
    by_cases hc : (dictGet tb.columns c).isSome
    · simp [hc]
    · simp only [hc, if_false, Bool.false_eq_true]
      by_cases ht : t = tn
      · subst ht
        rw [dictGet_dictSet_self, hdb]
        rfl
      · rw [dictGet_dictSet_ne _ _ _ _ ht]

theorem add_missing_columns_rows (db : Db) (tn : String)
    (record : List (String × SqlValue)) (t : String) :
    ((dictGet (add_missing_columns db tn record).tables t).map Table.rows) =
    ((dictGet db.tables t).map Table.rows) := by
  unfold add_missing_columns
  generalize ((dictGet db.tables tn).map Table.columns).getD [] = existing
  induction record generalizing db with
  | nil => rfl
  | cons p rest ih =>
    simp only [List.foldl_cons]
    rw [ih]
    by_cases hp : (dictGet existing (pyLower p.1)).isSome
    · simp [hp]
    · simp [hp, alterAddColumn_rows]

theorem execute_upsert_columns (t t' : Table) (rid : String)
    (ps : List (String × SqlValue)) (h : execute_upsert t rid ps = some t') :
    t'.columns = t.columns := by
  unfold execute_upsert at h
  by_cases he : ps.isEmpty
  · simp [he] at h
  · by_cases ha : ps.any (fun p => (dictGet t.columns p.1).isNone)
    · simp [he, ha] at h
    · simp only [he, ha, if_false, Bool.false_eq_true, Option.some.injEq] at h
      cases hrow : dictGet t.rows rid with
      | some r => rw [hrow] at h; rw [← h]
      | none => rw [hrow] at h; rw [← h]

theorem execute_upsert_idem (t t' : Table) (rid : String)
    (ps : List (String × SqlValue)) (hnd : (ps.map Prod.fst).Nodup)
    (h : execute_upsert t rid ps = some t') :
    execute_upsert t' rid ps = some t' := by
  have hcols : t'.columns = t.columns := execute_upsert_columns t t' rid ps h
  unfold execute_upsert at h ⊢
  by_cases he : ps.isEmpty
  · simp [he] at h
  · by_cases ha : ps.any (fun p => (dictGet t.columns p.1).isNone)
    · simp [he, ha] at h
    · have ha' : ¬ ps.any (fun p => (dictGet t'.columns p.1).isNone) = true := by
        rw [hcols]; exact ha
      simp only [he, ha, ha', if_false, Bool.false_eq_true, Option.some.injEq] at h ⊢
      cases hrow : dictGet t.rows rid with
      | some r =>
        simp only [hrow] at h
        subst h
        simp only [dictGet_dictSet_self, applyPairs_idem _ _ hnd, dictSet_dictSet_same]
      | none =>
        simp only [hrow] at h
        subst h
        have hget : dictGet (t.rows ++ [(rid, applyPairs [] ps)]) rid =
            some (applyPairs [] ps) := by
          rw [dictGet_append_of_none _ _ _ hrow]
          simp [dictGet]
        simp only [hget, applyPairs_idem _ _ hnd]
        rw [dictSet_eq_of_get _ _ _ hget]

/-! ### Concrete fixtures: the states and records the claims talk about. -/

/-- The empty database. -/
def emptyDb : Db := { tables := [], uuidCounter := 0 }

/-- Root state after `create_table_if_not_exists(conn, "launches")`. -/
def dbLaunches : Db := create_table_if_not_exists emptyDb "launches"

/-- The array-fidelity record of the spec. -/
def recTags : Record :=
  [("id", JsonValue.str "a1"),
   ("tags", JsonValue.arr [JsonValue.str "x", JsonValue.str "y", JsonValue.str "z"])]

/-- The nested-object round-trip record of the spec. -/
def recRocket : Record :=
  [("id", JsonValue.str "L1"),
   ("rocket", JsonValue.obj [("name", JsonValue.str "Falcon9"),
                             ("stages", JsonValue.int 2)])]

/-- The boolean legacy-mapping record of the spec. -/
def recLanded : Record := [("id", JsonValue.str "b1"), ("landed", JsonValue.bool true)]

/-- A later record carrying the string "true" for the same column. -/
def recLandedStr : Record := [("id", JsonValue.str "b2"), ("landed", JsonValue.str "true")]

/-- State after routing `recTags`'s nested field into its child table. -/
def dbAfterTagsRoute : Db := process_nested_columns dbLaunches "launches" recTags "id"

/-- State after routing `recRocket`'s nested field into its child table. -/
def dbAfterRocketRoute : Db := process_nested_columns dbLaunches "launches" recRocket "id"

/-- State after the (intended) write path loads `recLanded`. -/
def dbAfterLanded : Db := load_record_body dbLaunches "launches" recLanded

/-- State after the (intended) write path then loads `recLandedStr`. -/
def dbAfterLandedStr : Db := load_record_body dbAfterLanded "launches" recLandedStr

/-- State after the (intended) write path loads `recTags` once. -/
def dbOnceTags : Db := load_record_body dbLaunches "launches" recTags

/-- State after the (intended) write path loads `recTags` a second time. -/
def dbTwiceTags : Db := load_record_body dbOnceTags "launches" recTags

/-! ### The claims. -/

/-- A batch whose first record has an id and a nested field, and whose
second record is an ordinary record with an id. -/
def batchC1 : List Record :=
  [recTags, [("id", JsonValue.str "a2"), ("flight", JsonValue.int 2)]]

/-- C1: the spec demands that a failure while writing one record roll
back only that record and never abort the batch.  The code violates
this: processing the very first record of `batchC1` raises
`UnboundLocalError` at the `process_nested_columns` reference (bound
only by the `def` placed after the loop), the exception is unhandled, and
the whole batch aborts with no record written and no child table
created. -/
theorem c1_record_failure_aborts_whole_batch :
    (insert_or_update_data dbLaunches "launches" batchC1).2 =
      some (PyError.unboundLocalError "process_nested_columns") ∧
    rowCount (insert_or_update_data dbLaunches "launches" batchC1).1 "launches" =
      some 0 ∧
    dictGet (insert_or_update_data dbLaunches "launches" batchC1).1.tables
      "launches_tags" = none :=
  ⟨rfl, rfl, rfl⟩

/-- C2: for every batch containing at least one record with a truthy id,
`insert_or_update_data` raises `UnboundLocalError` at the
`process_nested_columns` reference inside the loop (the local name is
bound only by the `def` statement after the loop), before committing any
record: no table's rows change. -/
theorem c2_unbound_local_aborts_batch (db : Db) (tn : String) (data : List Record)
    (h : data.any (fun r => pyTruthyOpt (dictGet r "id")) = true) :
    (insert_or_update_data db tn data).2 =
      some (PyError.unboundLocalError "process_nested_columns") ∧
    ∀ t, ((dictGet (insert_or_update_data db tn data).1.tables t).map Table.rows) =
      ((dictGet db.tables t).map Table.rows) := by
  induction data generalizing db with
  | nil => simp at h
  | cons r rest ih =>
    by_cases hid : pyTruthyOpt (dictGet r "id") = true
    · constructor
      · simp [insert_or_update_data, insert_or_update_data_loop, hid]
      · intro t
        simp only [insert_or_update_data, insert_or_update_data_loop, hid, if_true]
        exact add_missing_columns_rows db tn _ t
    · rw [List.any_cons, Bool.or_eq_true] at h
      rcases h with hh | h'
      · exact absurd hh hid
      · have hrec := ih db h'
        simpa [insert_or_update_data, insert_or_update_data_loop, hid] using hrec

/-- Witness for C2 at a concrete batch: one record with id "a1". -/
theorem c2_unbound_local_aborts_batch_witness :
    (insert_or_update_data dbLaunches "launches" [recTags]).2 =
      some (PyError.unboundLocalError "process_nested_columns") ∧
    ∀ t, ((dictGet (insert_or_update_data dbLaunches "launches" [recTags]).1.tables t).map
      Table.rows) = ((dictGet dbLaunches.tables t).map Table.rows) :=
  c2_unbound_local_aborts_batch dbLaunches "launches" [recTags] rfl

/-- C3 counterexample: the claim says a nested array field is excluded
from the flat mapping; in fact `flatten_json` keeps the key `tags`,
mapping it to the `Json`-wrapped array. -/
theorem c3_flatten_keeps_nested_field_inline :
    dictGet (flatten_json recTags) "tags" =
      some (SqlValue.jsonb (JsonValue.arr
        [JsonValue.str "x", JsonValue.str "y", JsonValue.str "z"])) := rfl

/-- C3 amended: `flatten_json` includes every field of the record in the
flat mapping under its lower-cased key; a nested object/array field is
not excluded but kept, wrapped as a JSONB (`Json`) value, and no separate
nested-fragment list is produced. -/
theorem c3_flatten_includes_nested_as_jsonb (data : List (String × JsonValue))
    (hnd : (data.map (fun p => pyLower p.1)).Nodup) :
    (∀ k v, (k, v) ∈ data →
      dictGet (flatten_json data) (pyLower k) = some (flattenValue v)) ∧
    (∀ k v, (k, v) ∈ data → isNestedValue v = true →
      dictGet (flatten_json data) (pyLower k) = some (SqlValue.jsonb v)) := by
  have hnd' : ((data.map (fun p => (pyLower p.1, flattenValue p.2))).map Prod.fst).Nodup := by
    simpa [List.map_map, Function.comp] using hnd
  constructor
  · intro k v hm
    rw [flatten_json_eq_applyPairs]
    exact dictGet_applyPairs_mem _ _ _ _ hnd'
      (List.mem_map_of_mem (fun p => (pyLower p.1, flattenValue p.2)) hm)
  · intro k v hm hnest
    rw [flatten_json_eq_applyPairs]
    have hg := dictGet_applyPairs_mem _ ([] : Row) _ _ hnd'
      (List.mem_map_of_mem (fun p => (pyLower p.1, flattenValue p.2)) hm)
    rw [flattenValue_nested v hnest] at hg
    exact hg

/-- Witness for C3's amended statement on the tags record. -/
theorem c3_flatten_includes_nested_as_jsonb_witness :
    dictGet (flatten_json recTags) (pyLower "tags") =
      some (SqlValue.jsonb (JsonValue.arr
        [JsonValue.str "x", JsonValue.str "y", JsonValue.str "z"])) :=
  (c3_flatten_includes_nested_as_jsonb recTags (by decide)).2 "tags"
    (JsonValue.arr [JsonValue.str "x", JsonValue.str "y", JsonValue.str "z"])
    (List.mem_cons_of_mem _ (List.mem_cons_self _ _)) rfl

/-- C4: the claim says every boolean infers BOOLEAN because the boolean
rule fires first; in the code `isinstance(value, int)` is checked first
and Python's `bool` is a subclass of `int`, so both booleans infer
INTEGER and the boolean branch is dead. -/
theorem c4_infer_bool_returns_integer :
    infer_column_type (SqlValue.plain (JsonValue.bool true)) = "INTEGER" ∧
    infer_column_type (SqlValue.plain (JsonValue.bool false)) = "INTEGER" ∧
    ("INTEGER" : String) ≠ "BOOLEAN" :=
  ⟨rfl, rfl, by decide⟩

/-- C5 counterexample: loading `{"id":"b1","landed":true}` infers column
type INTEGER (not BOOLEAN) for `landed` and stores the integer `1` (not
a boolean): `process_boolean_values` coerces the boolean before the
column type is inferred. -/
theorem c5_boolean_coerced_to_integer :
    tableColumnType dbAfterLanded "launches" "landed" = some "INTEGER" ∧
    some "INTEGER" ≠ some "BOOLEAN" ∧
    storedValue dbAfterLanded "launches" "b1" "landed" =
      some (SqlValue.plain (JsonValue.int 1)) ∧
    SqlValue.plain (JsonValue.int 1) ≠ SqlValue.plain (JsonValue.bool true) := by
  refine ⟨rfl, by decide, rfl, fun hc => ?_⟩
  injection hc with h1
  exact JsonValue.noConfusion h1

/-- C5 amended: the boolean is coerced to the integer 1 and the column is
inferred INTEGER; a later record carrying the string "true" for the same
column is stored in that same column and does not create a second
column (the column set is unchanged), because `add_missing_columns` only
adds columns whose lower-cased name is absent. -/
theorem c5_boolean_stored_integer_no_second_column :
    tableColumnType dbAfterLanded "launches" "landed" = some "INTEGER" ∧
    storedValue dbAfterLanded "launches" "b1" "landed" =
      some (SqlValue.plain (JsonValue.int 1)) ∧
    tableColumnNames dbAfterLanded "launches" = some ["id", "data", "landed"] ∧
    tableColumnNames dbAfterLandedStr "launches" = some ["id", "data", "landed"] ∧
    storedValue dbAfterLandedStr "launches" "b2" "landed" =
      some (SqlValue.plain (JsonValue.str "true")) :=
  ⟨rfl, rfl, rfl, rfl, rfl⟩

/-- C6 counterexample: routing `{"id":"a1","tags":["x","y","z"]}` to its
child table produces one row, not three, and the child table has no
`item_index` or `value` column at all. -/
theorem c6_single_blob_row_not_three_indexed_rows :
    rowCount dbAfterTagsRoute "launches_tags" = some 1 ∧
    some (1 : Nat) ≠ some 3 ∧
    tableColumnNames dbAfterTagsRoute "launches_tags" =
      some ["child_id", "launches_id", "data"] ∧
    "item_index" ∉ ["child_id", "launches_id", "data"] ∧
    "value" ∉ ["child_id", "launches_id", "data"] :=
  ⟨rfl, by decide, rfl, by decide, by decide⟩

/-- C6 amended: loading the record produces exactly one row in
`launches_tags`, whose `data` column holds the entire array as JSONB and
whose `launches_id` column references parent id "a1"; the columns are
`child_id`, `launches_id`, `data` (no `item_index`/`value`). -/
theorem c6_one_child_row_with_whole_array :
    dictGet dbAfterTagsRoute.tables "launches_tags" =
      some (Table.mk [("child_id", "TEXT"), ("launches_id", "TEXT"), ("data", "JSONB")]
        [("uuid-0", [("launches_id", SqlValue.plain (JsonValue.str "a1")),
                     ("data", SqlValue.jsonb (JsonValue.arr
                       [JsonValue.str "x", JsonValue.str "y", JsonValue.str "z"]))])]) := rfl

/-- C7 counterexample: the child table `launches_rocket` has no `name`
and no `stages` column (the claim says it has `name` TEXT and `stages`
INTEGER). -/
theorem c7_child_table_lacks_name_stages_columns :
    tableColumnType dbAfterRocketRoute "launches_rocket" "name" = none ∧
    tableColumnType dbAfterRocketRoute "launches_rocket" "stages" = none ∧
    (none : Option String) ≠ some "TEXT" ∧
    (none : Option String) ≠ some "INTEGER" :=
  ⟨rfl, rfl, by decide, by decide⟩

/-- C7 amended: loading `{"id":"L1","rocket":{...}}` creates the child
table `launches_rocket` with columns `child_id` TEXT, `launches_id` TEXT
and `data` JSONB, containing one row whose `launches_id` equals "L1" and
whose `data` column holds the whole rocket object. -/
theorem c7_child_one_row_with_whole_object :
    dictGet dbAfterRocketRoute.tables "launches_rocket" =
      some (Table.mk [("child_id", "TEXT"), ("launches_id", "TEXT"), ("data", "JSONB")]
        [("uuid-0", [("launches_id", SqlValue.plain (JsonValue.str "L1")),
                     ("data", SqlValue.jsonb (JsonValue.obj
                       [("name", JsonValue.str "Falcon9"),
                        ("stages", JsonValue.int 2)]))])]) := rfl

/-- C8 counterexample: loading the same record (with a nested field)
twice is not state-identical to loading it once: the child table gains a
second row (a fresh `child_id` is generated per load). -/
theorem c8_second_load_duplicates_child_row :
    rowCount dbTwiceTags "launches_tags" = some 2 ∧
    rowCount dbOnceTags "launches_tags" = some 1 ∧
    dbTwiceTags ≠ dbOnceTags := by
  refine ⟨rfl, rfl, fun h => ?_⟩
  have h2 : rowCount dbTwiceTags "launches_tags" = some 2 := rfl
  rw [h] at h2
  have h1 : rowCount dbOnceTags "launches_tags" = some 1 := rfl
  rw [h1] at h2
  exact absurd h2 (by decide)

/-- C8 amended: the root-table upsert itself is idempotent — re-executing
the `ON CONFLICT (id) DO UPDATE` statement with the same values is a
no-op — and indeed the root table state is identical after loading the
same record twice; but each load appends one fresh child-table row per
nested field, so child tables are not idempotent. -/
theorem c8_root_upsert_idempotent_child_rows_accumulate :
    (∀ (t t' : Table) (rid : String) (ps : List (String × SqlValue)),
      (ps.map Prod.fst).Nodup → execute_upsert t rid ps = some t' →
      execute_upsert t' rid ps = some t') ∧
    dictGet dbTwiceTags.tables "launches" = dictGet dbOnceTags.tables "launches" ∧
    rowCount dbTwiceTags "launches_tags" = some 2 ∧
    rowCount dbOnceTags "launches_tags" = some 1 :=
  ⟨fun t t' rid ps hnd h => execute_upsert_idem t t' rid ps hnd h, rfl, rfl, rfl⟩

/-- A one-row table used to witness the upsert idempotence. -/
def tUpAfter : Table :=
  Table.mk [("id", "TEXT"), ("flight", "INTEGER")]
    [("a1", [("flight", SqlValue.plain (JsonValue.int 2))])]

/-- Witness for C8's amended statement: a concrete upsert that has been
executed once is a no-op when executed again. -/
theorem c8_root_upsert_idempotent_witness :
    execute_upsert tUpAfter "a1" [("flight", SqlValue.plain (JsonValue.int 2))] =
      some tUpAfter :=
  c8_root_upsert_idempotent_child_rows_accumulate.1
    (Table.mk [("id", "TEXT"), ("flight", "INTEGER")]
      [("a1", [("flight", SqlValue.plain (JsonValue.int 1))])])
    tUpAfter "a1" [("flight", SqlValue.plain (JsonValue.int 2))] (by decide) rfl

/-- C9: when the upserted record's id matches an existing row, the
statement built at lines 47-81 overwrites exactly the non-id columns
present in the incoming flattened record with their new values, and
every column not present in the record keeps its old value (it is not
nulled). -/
theorem c9_conflict_update_overwrites_present_keeps_absent (t : Table) (rid : String)
    (flattened : List (String × SqlValue)) (r : Row)
    (hrow : dictGet t.rows rid = some r)
    (hne : (update_pairs flattened).isEmpty = false)
    (hcols : (update_pairs flattened).any
      (fun p => (dictGet t.columns p.1).isNone) = false)
    (hnd : ((update_pairs flattened).map Prod.fst).Nodup) :
    ∃ t', execute_upsert t rid (update_pairs flattened) = some t' ∧
      ∃ r', dictGet t'.rows rid = some r' ∧
        (∀ c v, (c, v) ∈ update_pairs flattened → dictGet r' c = some v) ∧
        (∀ c, c ∉ (update_pairs flattened).map Prod.fst →
          dictGet r' c = dictGet r c) := by
  refine ⟨Table.mk t.columns
      (dictSet t.rows rid (applyPairs r (update_pairs flattened))), ?_,
    applyPairs r (update_pairs flattened), ?_, ?_, ?_⟩
  · unfold execute_upsert
    simp only [hne, hcols, hrow, Bool.false_eq_true, if_false]
  · exact dictGet_dictSet_self _ _ _
  · exact fun c v hm => dictGet_applyPairs_mem _ _ _ _ hnd hm
  · exact fun c hm => dictGet_applyPairs_not_mem _ _ _ hm

/-- An existing table state used to witness the conflict-update claim. -/
def tC9 : Table :=
  Table.mk [("id", "TEXT"), ("flight", "INTEGER"), ("name", "TEXT")]
    [("a1", [("flight", SqlValue.plain (JsonValue.int 1)),
             ("name", SqlValue.plain (JsonValue.str "old"))])]

/-- An incoming flattened record used to witness the conflict-update
claim: it carries `id` and a new `flight`, but no `name`. -/
def flC9 : List (String × SqlValue) :=
  [("id", SqlValue.plain (JsonValue.str "a1")),
   ("flight", SqlValue.plain (JsonValue.int 2))]

/-- Witness for C9 at a concrete table and record. -/
theorem c9_conflict_update_witness :
    ∃ t', execute_upsert tC9 "a1" (update_pairs flC9) = some t' ∧
      ∃ r', dictGet t'.rows "a1" = some r' ∧
        (∀ c v, (c, v) ∈ update_pairs flC9 → dictGet r' c = some v) ∧
        (∀ c, c ∉ (update_pairs flC9).map Prod.fst →
          dictGet r' c = dictGet [("flight", SqlValue.plain (JsonValue.int 1)),
            ("name", SqlValue.plain (JsonValue.str "old"))] c) :=
  c9_conflict_update_overwrites_present_keeps_absent tC9 "a1" flC9
    [("flight", SqlValue.plain (JsonValue.int 1)),
     ("name", SqlValue.plain (JsonValue.str "old"))] rfl rfl rfl (by decide)

/-- A batch of three records in which the second lacks an id. -/
def batchC10 : List Record :=
  [[("id", JsonValue.str "r1"), ("flight", JsonValue.int 1)],
   [("flight", JsonValue.int 2)],
   [("id", JsonValue.str "r3"), ("flight", JsonValue.int 3)]]

/-- C10: the claim says records 1 and 3 of `batchC10` are committed and
only record 2 is skipped.  In the code the loop raises an unhandled
`UnboundLocalError` already while processing record 1 (see C2), so the
whole batch aborts and neither record 1 nor record 3 is ever written. -/
theorem c10_missing_id_batch_aborted_nothing_committed :
    (insert_or_update_data dbLaunches "launches" batchC10).2 =
      some (PyError.unboundLocalError "process_nested_columns") ∧
    rowCount (insert_or_update_data dbLaunches "launches" batchC10).1 "launches" =
      some 0 :=
  ⟨rfl, rfl⟩

end SpaceXETL
